import Mathlib

/-!
Verification development for the AzureFunctionXLSM repository.

The repository contains two Azure-Function HTTP handlers that convert a
macro-enabled spreadsheet (XLSM) referenced by URL into a macro-free
workbook (XLSX), publish it to blob storage, and return a signed link:

* `XLSM_Convert_Trigger/__init__.py`, function `main` — in-memory buffers,
  full-URL extension validation, prefixed timestamped output names,
  `generate_blob_sas` with a 60-minute expiry, JSON success body with the
  field `converted_url`.
* `function_app.py`, function `convert_xlsm` — temp-file buffers, no
  extension validation, flat output names produced by
  `str.replace(".xlsm", ".xlsx")`, JSON success body with the field
  `xlsx_url`.

Both handlers are embedded below as pure Lean functions over an explicit
environment (deployment configuration) and world (outcomes of the external
collaborators: HTTP fetch, openpyxl transcoding, blob upload, SAS signing,
and the clock).  Each run returns the HTTP response, the list of observable
side effects in order, the final contents of the output store, and the SAS
token that was minted, if any.
-/

namespace XlsmConvert

/-! ## String utilities embedding the Python primitives used by the code -/

/-- Embeds Python `str.lower()` for the ASCII strings handled here. -/
def strToLower (s : String) : String :=
  String.mk (s.data.map Char.toLower)

/-- Embeds Python `s.endswith(suffixStr)`. -/
def strEndsWith (s suffixStr : String) : Bool :=
  List.isSuffixOf suffixStr.data s.data

/-- The characters after the last occurrence of `sep` (the whole list when
`sep` does not occur).  This is the value of Python `s.split(sep)[-1]`
for a one-character separator. -/
def afterLastSep (sep : Char) (l : List Char) : List Char :=
  (l.reverse.takeWhile (fun c => c != sep)).reverse

/-- Embeds Python `url.split('/')[-1]` (used by `main`, line 46) and
`os.path.basename` applied to a path free of backslashes (used by
`convert_xlsm`, line 70). -/
def lastSlashSegment (s : String) : String :=
  String.mk (afterLastSep '/' s.data)

/-- Root part of Python `os.path.splitext` on a separator-free file name
(list level): cut at the last dot, provided some character before that dot
is not itself a dot; otherwise the name is returned whole. -/
def splitextRootL (l : List Char) : List Char :=
  let r := l.reverse
  let ext := r.takeWhile (fun c => c != '.')
  if ext.length = r.length then l
  else if (r.drop (ext.length + 1)).all (fun c => c == '.') then l
  else (r.drop (ext.length + 1)).reverse

/-- Embeds `os.path.splitext(...)[0]` (used by `main`, line 47). -/
def splitextRoot (s : String) : String :=
  String.mk (splitextRootL s.data)

/-- First index at which `pat` occurs as a contiguous sublist. -/
def findSubstrIdx (pat : List Char) : List Char → Option Nat
  | [] => if pat.isEmpty then some 0 else none
  | c :: rest =>
    if pat.isPrefixOf (c :: rest) then some 0
    else (findSubstrIdx pat rest).map (fun n => n + 1)

/-- Whether `pat` occurs as a contiguous sublist of the second argument.
Embeds the Python substring containment used to reason about
`str.replace`. -/
def hasSubstrL (pat : List Char) : List Char → Bool
  | [] => pat.isEmpty
  | c :: rest => pat.isPrefixOf (c :: rest) || hasSubstrL pat rest

/-- String-level substring test: `hasSubstrStr pat s` is Python
`pat in s`. -/
def hasSubstrStr (pat s : String) : Bool :=
  hasSubstrL pat.data s.data

/-- Fuel-indexed worker for Python `str.replace`: scan left to right;
whenever the (non-empty) pattern starts at the current position, emit the
replacement and skip the pattern, else keep one character and continue. -/
def pyReplaceFuel (pat rep : List Char) : Nat → List Char → List Char
  | _, [] => []
  | 0, l => l
  | Nat.succ fuel, c :: rest =>
    if pat.isPrefixOf (c :: rest) && !pat.isEmpty then
      rep ++ pyReplaceFuel pat rep fuel ((c :: rest).drop pat.length)
    else
      c :: pyReplaceFuel pat rep fuel rest

/-- Embeds Python `s.replace(pat, rep)` for a non-empty pattern
(used by `convert_xlsm`, line 71). -/
def pyReplaceStr (s pat rep : String) : String :=
  String.mk (pyReplaceFuel pat.data rep.data s.data.length s.data)

/-- Embeds `urllib.parse.urlparse(u).path` for the http(s)-style
references this code handles: drop the scheme (up to the first `"://"`)
and the network location (up to the next `'/'`), and stop at the first
`'?'` or `'#'`.  A reference with no `"://"` is treated as having no
scheme or network location, as `urlparse` does for plain paths. -/
def urlparsePath (u : String) : String :=
  match findSubstrIdx "://".data u.data with
  | none => String.mk (u.data.takeWhile (fun c => c != '?' && c != '#'))
  | some i =>
    String.mk (((u.data.drop (i + 3)).dropWhile (fun c => c != '/')).takeWhile
      (fun c => c != '?' && c != '#'))

/-- Minimal embedding of the escaping `json.dumps` applies to the string
values produced here (quote and backslash). -/
def jsonEscape (s : String) : String :=
  String.mk (s.data.foldr
    (fun c acc =>
      if c = '"' then '\\' :: '"' :: acc
      else if c = '\\' then '\\' :: '\\' :: acc
      else c :: acc) [])

/-! ## Timestamps -/

/-- A UTC wall-clock instant as produced by `datetime.now(timezone.utc)`;
fields carry the usual calendar ranges (month 1–12, and so on). -/
structure DateTime where
  year : Nat
  month : Nat
  day : Nat
  hour : Nat
  minute : Nat
  second : Nat
deriving DecidableEq

/-- The ASCII digit for `n % 10`. -/
def digitChar (n : Nat) : Char := Char.ofNat (48 + n % 10)

/-- Two-digit zero-padded decimal rendering of an in-range field, as
`strftime` does for `%m`, `%d`, `%H`, `%M`, `%S`. -/
def pad2 (n : Nat) : String :=
  String.mk [digitChar (n / 10), digitChar n]

/-- Four-digit zero-padded decimal rendering of an in-range year, as
`strftime` does for `%Y`. -/
def pad4 (n : Nat) : String :=
  String.mk [digitChar (n / 1000), digitChar (n / 100), digitChar (n / 10), digitChar n]

/-- Embeds `datetime.strftime('%Y%m%d%H%M%S')` (used by `main`,
line 48). -/
def strftimeYmdHMS (t : DateTime) : String :=
  pad4 t.year ++ pad2 t.month ++ pad2 t.day ++ pad2 t.hour ++ pad2 t.minute ++ pad2 t.second

/-- `timedelta(minutes=n)` in seconds. -/
def minutes (n : Nat) : Nat := n * 60

/-- `timedelta(hours=n)` in seconds. -/
def hours (n : Nat) : Nat := n * 3600

/-! ## Data model of one pipeline run -/

/-- Raw bytes flowing through the pipeline. -/
abbrev Bytes := List Nat

/-- The parse of an incoming request body, as seen through
`req.get_json()` followed by `.get(field)`:
`invalid msg` — the body is not valid JSON, so `get_json` raises a
`ValueError` whose text is `msg`; `nonDict typeName` — the body is valid
JSON but not an object, so `.get` raises an `AttributeError` mentioning
`typeName`; `parsed v` — the body is a JSON object and the source-location
field holds `v` (`none` when absent). -/
inductive ReqBody where
  | invalid (msg : String)
  | nonDict (typeName : String)
  | parsed (url : Option String)
deriving DecidableEq

/-- The `AttributeError` text raised by `jsonValue.get(...)` when the
parsed body is not a dict. -/
def attrErrMsg (typeName : String) : String :=
  "'" ++ typeName ++ "' object has no attribute 'get'"

/-- Outcome of `requests.get` followed by `raise_for_status()`:
a body on 2xx, a `requests.HTTPError` carrying the upstream status code
on non-2xx, or another `RequestException` (network failure) carrying only
an exception message. -/
inductive FetchOutcome where
  | ok (content : Bytes)
  | httpError (statusCode : Nat) (msg : String)
  | networkError (msg : String)
deriving DecidableEq

/-- An HTTP response as built by `func.HttpResponse`. -/
structure HttpResponse where
  body : String
  statusCode : Nat
deriving DecidableEq

/-- The parameters this code passes to `generate_blob_sas`: the blob
coordinates, the `BlobSasPermissions` flags, and the expiry instant in
seconds. -/
structure SasToken where
  accountName : String
  containerName : String
  blobName : String
  read : Bool
  add : Bool
  create : Bool
  write : Bool
  delete : Bool
  expiry : Nat
deriving DecidableEq

/-- Observable side effects of one run, in program order. -/
inductive Event where
  | fetchAttempt (url : String)
  | diskWrite (tag : String)
  | transcodeRun
  | uploadAttempt (container blob : String)
  | diskDelete (tag : String)
deriving DecidableEq

/-- Result of one pipeline run: the HTTP response, the effect trace, the
objects present in the output store afterwards (starting from an empty
store), and the SAS token minted, if the run got that far. -/
structure RunResult where
  resp : HttpResponse
  events : List Event
  store : List (String × String)
  sas : Option SasToken
deriving DecidableEq

/-- Outcomes of the external collaborators and the clock, fixed for the
duration of one request. -/
structure World where
  fetch : String → FetchOutcome
  transcode : Bytes → Except String Bytes
  uploadError : Option String
  signSas : SasToken → String
  now : DateTime
  nowSec : Nat

/-! ## `XLSM_Convert_Trigger/__init__.py` (`main`) -/

/-- Module-level constant `OUTPUT_CONTAINER_NAME` (line 15). -/
def OUTPUT_CONTAINER_NAME : String := "xlsx-output"

/-- Deployment configuration seen by `main`: the `AzureWebJobsStorage`
connection string, the account key the blob client recovers from it
(`blob_service_client.credential.account_key`, possibly absent), and the
account name. -/
structure MainEnv where
  storageConnStr : Option String
  accountKey : Option String
  accountName : String

/-- The guard on line 39: `xlsm_url` is truthy and
`xlsm_url.lower().endswith(".xlsm")`.  Note the suffix check runs on the
whole URL string, query component included. -/
def mainValid (u : String) : Bool :=
  !(u == "") && strEndsWith (strToLower u) ".xlsm"

/-- Lines 46–47: `xlsm_url.split('/')[-1]` then
`os.path.splitext(...)[0]`. -/
def mainBaseName (u : String) : String :=
  splitextRoot (lastSlashSegment u)

/-- Line 48: `f"converted/{base}_{now:%Y%m%d%H%M%S}.xlsx"`. -/
def mainOutputBlobName (u : String) (t : DateTime) : String :=
  "converted/" ++ mainBaseName u ++ "_" ++ strftimeYmdHMS t ++ ".xlsx"

/-- `blob_client.url` for a blob of the storage account. -/
def blobUrl (account container blob : String) : String :=
  "https://" ++ account ++ ".blob.core.windows.net/" ++ container ++ "/" ++ blob

/-- Response of the inner `except ValueError` handler (lines 34–37). -/
def mainBadJsonResp : HttpResponse :=
  ⟨"Please pass a JSON payload with 'xlsm_url'", 400⟩

/-- Response of the URL guard (lines 40–43). -/
def mainInvalidUrlResp : HttpResponse :=
  ⟨"Invalid or missing 'xlsm_url'. Must be a URL ending with .xlsm", 400⟩

/-- Response of the `except requests.HTTPError` handler (lines 108–113),
surfacing `e.response.status_code`. -/
def mainHttpErrResp (statusCode : Nat) : HttpResponse :=
  ⟨"Download failed due to HTTP Error: " ++ toString statusCode ++
    ". Check XLSM URL/SAS token.", 400⟩

/-- Response of the catch-all `except Exception` handler (lines 114–123),
surfacing `str(e)`. -/
def mainGeneric500 (e : String) : HttpResponse :=
  ⟨"Internal conversion or storage error. See Application Insights logs for details. Error: "
    ++ e, 500⟩

/-- `ValueError` text raised on line 71 when the connection string is
unset. -/
def noConnStrMsg : String := "AzureWebJobsStorage connection string is not set."

/-- `ValueError` text raised on line 87 when no account key is
available. -/
def noKeyMsg : String := "Account key could not be retrieved from connection string."

/-- `json.dumps({"status": "success", "converted_url": url})`
(line 103). -/
def mainSuccessBody (url : String) : String :=
  "\x7b\"status\": \"success\", \"converted_url\": \"" ++ jsonEscape url ++ "\"\x7d"

/-- The `generate_blob_sas` call of `main` (lines 89–97):
`BlobSasPermissions(read=True)` and
`expiry = datetime.now(timezone.utc) + timedelta(minutes=60)`. -/
def mainSasToken (accountName u : String) (w : World) : SasToken :=
  ⟨accountName, OUTPUT_CONTAINER_NAME, mainOutputBlobName u w.now,
   true, false, false, false, false, w.nowSec + minutes 60⟩

/-- Shallow embedding of `main` in `XLSM_Convert_Trigger/__init__.py`:
parse body → validate URL → derive the output name → download → transcode
in memory → upload → mint the SAS token → respond, with the
`requests.HTTPError` handler mapping download failures to 400 and the
catch-all handler mapping every other exception to 500. -/
def mainPipeline (env : MainEnv) (w : World) (req : ReqBody) : RunResult :=
  match req with
  | .invalid _ => ⟨mainBadJsonResp, [], [], none⟩
  | .nonDict tn => ⟨mainGeneric500 (attrErrMsg tn), [], [], none⟩
  | .parsed none => ⟨mainInvalidUrlResp, [], [], none⟩
  | .parsed (some xlsm_url) =>
    if mainValid xlsm_url then
      match w.fetch xlsm_url with
      | .httpError code _ => ⟨mainHttpErrResp code, [.fetchAttempt xlsm_url], [], none⟩
      | .networkError msg => ⟨mainGeneric500 msg, [.fetchAttempt xlsm_url], [], none⟩
      | .ok content =>
        match w.transcode content with
        | .error msg =>
            ⟨mainGeneric500 msg, [.fetchAttempt xlsm_url, .transcodeRun], [], none⟩
        | .ok _xlsxBytes =>
          match env.storageConnStr with
          | none =>
              ⟨mainGeneric500 noConnStrMsg, [.fetchAttempt xlsm_url, .transcodeRun], [], none⟩
          | some _ =>
            match w.uploadError with
            | some msg =>
                ⟨mainGeneric500 msg,
                 [.fetchAttempt xlsm_url, .transcodeRun,
                  .uploadAttempt OUTPUT_CONTAINER_NAME (mainOutputBlobName xlsm_url w.now)],
                 [], none⟩
            | none =>
              match env.accountKey with
              | none =>
                  ⟨mainGeneric500 noKeyMsg,
                   [.fetchAttempt xlsm_url, .transcodeRun,
                    .uploadAttempt OUTPUT_CONTAINER_NAME (mainOutputBlobName xlsm_url w.now)],
                   [(OUTPUT_CONTAINER_NAME, mainOutputBlobName xlsm_url w.now)], none⟩
              | some _ =>
                ⟨⟨mainSuccessBody
                    (blobUrl env.accountName OUTPUT_CONTAINER_NAME
                      (mainOutputBlobName xlsm_url w.now) ++ "?"
                      ++ w.signSas (mainSasToken env.accountName xlsm_url w)), 200⟩,
                 [.fetchAttempt xlsm_url, .transcodeRun,
                  .uploadAttempt OUTPUT_CONTAINER_NAME (mainOutputBlobName xlsm_url w.now)],
                 [(OUTPUT_CONTAINER_NAME, mainOutputBlobName xlsm_url w.now)],
                 some (mainSasToken env.accountName xlsm_url w)⟩
    else ⟨mainInvalidUrlResp, [], [], none⟩

/-! ## `function_app.py` (`convert_xlsm`) -/

/-- Deployment configuration read by `convert_xlsm` (lines 54–57):
`STORAGE_CONNECTION_STRING`, `STORAGE_ACCOUNT_NAME`,
`STORAGE_ACCOUNT_KEY`, and `CONVERTED_CONTAINER` (defaulting to
`"converted"`). -/
structure AppEnv where
  connStr : Option String
  accountName : Option String
  accountKey : Option String
  convertedContainer : Option String

/-- Line 28. -/
def appMissingUrlResp : HttpResponse := ⟨"Missing 'url' in request.", 400⟩

/-- Outer `except Exception` handler (lines 107–109). -/
def appErrorResp (msg : String) : HttpResponse := ⟨"Error: " ++ msg, 500⟩

/-- Download handler (lines 34–36). -/
def appDownloadErrResp (msg : String) : HttpResponse :=
  ⟨"Download error: " ++ msg, 500⟩

/-- `load_workbook` handler (lines 46–48). -/
def appOpenpyxlErrResp (msg : String) : HttpResponse :=
  ⟨"openpyxl error: " ++ msg, 500⟩

/-- Missing-settings response (lines 59–63). -/
def appSettingsMissingResp : HttpResponse := ⟨"Azure storage settings missing.", 500⟩

/-- Lines 69–70: `os.path.basename(urlparse(file_url).path)`. -/
def appBaseName (u : String) : String :=
  lastSlashSegment (urlparsePath u)

/-- Line 71: `original_name.replace(".xlsm", ".xlsx")` — a case-sensitive
replacement of every occurrence. -/
def xlsxNameOf (originalName : String) : String :=
  pyReplaceStr originalName ".xlsm" ".xlsx"

/-- F-string success body (line 102); note the field is `xlsx_url` and no
escaping is applied. -/
def appSuccessBody (url : String) : String :=
  "\x7b\"status\":\"success\",\"xlsx_url\":\"" ++ url ++ "\"\x7d"

/-- The `generate_blob_sas` call of `convert_xlsm` (lines 83–90):
`BlobSasPermissions(read=True)` and
`expiry = datetime.utcnow() + timedelta(hours=1)`. -/
def appSasToken (accountName container xlsxName : String) (w : World) : SasToken :=
  ⟨accountName, container, xlsxName, true, false, false, false, false, w.nowSec + hours 1⟩

/-- Shallow embedding of `convert_xlsm` in `function_app.py`: parse body →
check the field is present → download (any failure → 500) → write the
bytes to a temp `.xlsm` file → `load_workbook` → save to a temp `.xlsx`
file → check storage settings → name by `.replace(".xlsm", ".xlsx")` →
upload → mint the SAS token → delete the temp files → respond; the outer
handler maps any other exception (including a `ValueError` from
`req.get_json()`) to 500. -/
def convertXlsm (env : AppEnv) (w : World) (req : ReqBody) : RunResult :=
  match req with
  | .invalid msg => ⟨appErrorResp msg, [], [], none⟩
  | .nonDict tn => ⟨appErrorResp (attrErrMsg tn), [], [], none⟩
  | .parsed none => ⟨appMissingUrlResp, [], [], none⟩
  | .parsed (some file_url) =>
    if file_url == "" then ⟨appMissingUrlResp, [], [], none⟩
    else
      match w.fetch file_url with
      | .httpError _ msg => ⟨appDownloadErrResp msg, [.fetchAttempt file_url], [], none⟩
      | .networkError msg => ⟨appDownloadErrResp msg, [.fetchAttempt file_url], [], none⟩
      | .ok content =>
        match w.transcode content with
        | .error msg =>
            ⟨appOpenpyxlErrResp msg,
             [.fetchAttempt file_url, .diskWrite "xlsm", .transcodeRun], [], none⟩
        | .ok _wb =>
          match env.connStr, env.accountName, env.accountKey with
          | some _, some account_name, some _ =>
            let container := env.convertedContainer.getD "converted"
            let xlsx_name := xlsxNameOf (appBaseName file_url)
            match w.uploadError with
            | some msg =>
                ⟨appErrorResp msg,
                 [.fetchAttempt file_url, .diskWrite "xlsm", .transcodeRun,
                  .diskWrite "xlsx", .uploadAttempt container xlsx_name], [], none⟩
            | none =>
              ⟨⟨appSuccessBody
                  ("https://" ++ account_name ++ ".blob.core.windows.net/" ++ container
                    ++ "/" ++ xlsx_name ++ "?"
                    ++ w.signSas (appSasToken account_name container xlsx_name w)), 200⟩,
               [.fetchAttempt file_url, .diskWrite "xlsm", .transcodeRun, .diskWrite "xlsx",
                .uploadAttempt container xlsx_name, .diskDelete "xlsm", .diskDelete "xlsx"],
               [(container, xlsx_name)], some (appSasToken account_name container xlsx_name w)⟩
          | _, _, _ =>
              ⟨appSettingsMissingResp,
               [.fetchAttempt file_url, .diskWrite "xlsm", .transcodeRun, .diskWrite "xlsx"],
               [], none⟩

/-! ## Spec-side reference definitions

The following definitions follow the specification's words rather than the
source, and exist only to be compared with the source-derived definitions
above (claims C1 and C6). -/

/-- The numeric value of a hexadecimal digit. -/
def hexVal (c : Char) : Option Nat :=
  if '0' ≤ c ∧ c ≤ '9' then some (c.toNat - 48)
  else if 'a' ≤ c ∧ c ≤ 'f' then some (c.toNat - 87)
  else if 'A' ≤ c ∧ c ≤ 'F' then some (c.toNat - 55)
  else none

/-- Percent-decoding of a character list: each `%XX` hex escape becomes
the character with code `XX`; malformed escapes are kept verbatim.
Follows the spec's phrase "percent-decoded" for claim C6. -/
def percentDecodeL : List Char → List Char
  | [] => []
  | '%' :: h1 :: h2 :: rest =>
    match hexVal h1, hexVal h2 with
    | some a, some b => Char.ofNat (16 * a + b) :: percentDecodeL rest
    | _, _ => '%' :: percentDecodeL (h1 :: h2 :: rest)
  | c :: rest => c :: percentDecodeL rest

/-- String-level percent-decoding. -/
def percentDecode (s : String) : String :=
  String.mk (percentDecodeL s.data)

/-- The validation the spec describes for claim C1: a case-insensitive
`.xlsm` suffix check on the URL's path component only, ignoring query
parameters.  Stated from the spec's words, to be compared with
`mainValid`, which checks the whole URL string. -/
def specPathOnlyXlsmCheck (u : String) : Bool :=
  strEndsWith (strToLower (urlparsePath u)) ".xlsm"

/-- The inferred base name the spec describes for claim C6: the last path
segment of the source reference (query parameters excluded), percent-
decoded, with the extension stripped.  Stated from the spec's words, to be
compared with `mainBaseName`. -/
def specInferredBaseName (u : String) : String :=
  splitextRoot (percentDecode (lastSlashSegment (urlparsePath u)))

/-! ## Concrete environments and worlds for witnesses -/

/-- A fully configured environment for `main`. -/
def demoMainEnv : MainEnv :=
  ⟨some "DefaultEndpointsProtocol=https;AccountName=acct;AccountKey=key123", some "key123", "acct"⟩

/-- The same environment with the account key unavailable. -/
def noKeyMainEnv : MainEnv :=
  ⟨some "DefaultEndpointsProtocol=https;AccountName=acct", none, "acct"⟩

/-- A fully configured environment for `convert_xlsm` with the default
output container. -/
def demoAppEnv : AppEnv :=
  ⟨some "connstr", some "acct", some "key123", none⟩

/-- A world in which every external collaborator succeeds. -/
def demoWorld : World where
  fetch := fun _ => .ok [80, 75, 3, 4]
  transcode := fun _ => .ok [80, 75, 9, 9]
  uploadError := none
  signSas := fun _ => "sv=2024&sig=abc"
  now := ⟨2024, 1, 1, 12, 0, 0⟩
  nowSec := 1704110400

/-- A world in which the source fetch fails with HTTP 404. -/
def w404 : World :=
  { demoWorld with fetch := fun _ => .httpError 404 "404 Client Error: Not Found" }

/-- A world in which the source fetch fails at the network level. -/
def wNet : World :=
  { demoWorld with fetch := fun _ => .networkError "Connection refused" }

/-! ## Helper lemmas -/

lemma takeWhile_append_sentinel (p : Char → Bool) (xs : List Char) (y : Char) (ys : List Char)
    (hxs : ∀ x ∈ xs, p x = true) (hy : p y = false) :
    (xs ++ y :: ys).takeWhile p = xs := by
  induction xs with
  | nil => simp [List.takeWhile_cons, hy]
  | cons b bs ih =>
    have hb : p b = true := hxs b (by simp)
    simp only [List.cons_append, List.takeWhile_cons, hb, if_true]
    rw [ih (fun x hx => hxs x (by simp [hx]))]

lemma afterLastSep_append (sep : Char) (a b : List Char) (hb : sep ∉ b) :
    afterLastSep sep (a ++ sep :: b) = b := by
  unfold afterLastSep
  have h1 : (a ++ sep :: b).reverse = b.reverse ++ sep :: a.reverse := by
    simp [List.reverse_append]
  rw [h1, takeWhile_append_sentinel _ b.reverse sep a.reverse
    (fun x hx => by
      simp only [List.mem_reverse] at hx
      simp only [bne_iff_ne, ne_eq]
      intro hEq; exact hb (hEq ▸ hx))
    (by simp), List.reverse_reverse]

lemma drop_append_cons (xs : List Char) (y : Char) (ys : List Char) :
    (xs ++ y :: ys).drop (xs.length + 1) = ys := by
  have h : xs ++ y :: ys = (xs ++ [y]) ++ ys := by simp
  rw [h]
  have h2 : xs.length + 1 = (xs ++ [y]).length := by simp
  rw [h2, List.drop_left]

lemma splitextRootL_concat (stem ext : List Char)
    (hstem : ∃ c ∈ stem, ¬ c = '.') (hext : '.' ∉ ext) :
    splitextRootL (stem ++ '.' :: ext) = stem := by
  have h1 : (stem ++ '.' :: ext).reverse = ext.reverse ++ '.' :: stem.reverse := by
    simp [List.reverse_append]
  simp only [splitextRootL, h1]
  have h2 : (ext.reverse ++ '.' :: stem.reverse).takeWhile (fun c => c != '.') = ext.reverse :=
    takeWhile_append_sentinel _ ext.reverse '.' stem.reverse
      (fun x hx => by
        simp only [List.mem_reverse] at hx
        simp only [bne_iff_ne, ne_eq]
        intro hEq; exact hext (hEq ▸ hx))
      (by simp)
  rw [h2]
  have h3 : ext.reverse.length ≠ (ext.reverse ++ '.' :: stem.reverse).length := by
    simp only [List.length_append, List.length_cons, List.length_reverse]
    omega
  rw [if_neg h3]
  have h4 : (ext.reverse ++ '.' :: stem.reverse).drop (ext.reverse.length + 1) = stem.reverse :=
    drop_append_cons ext.reverse '.' stem.reverse
  rw [h4]
  obtain ⟨c, hc, hcne⟩ := hstem
  have h5 : stem.reverse.all (fun c => c == '.') = false := by
    rw [List.all_eq_false]
    exact ⟨c, List.mem_reverse.mpr hc, by simpa using hcne⟩
  rw [if_neg (by simp [h5]), List.reverse_reverse]

lemma hasSubstrL_cons {pat : List Char} {c : Char} {rest : List Char}
    (h : hasSubstrL pat (c :: rest) = false) :
    pat.isPrefixOf (c :: rest) = false ∧ hasSubstrL pat rest = false := by
  rw [hasSubstrL, Bool.or_eq_false_iff] at h
  exact h

lemma pyReplaceFuel_id (pat rep : List Char) :
    ∀ (s : List Char) (fuel : Nat), hasSubstrL pat s = false →
      pyReplaceFuel pat rep fuel s = s := by
  intro s
  induction s with
  | nil => intro fuel _; cases fuel <;> rfl
  | cons c rest ih =>
    intro fuel h
    obtain ⟨h1, h2⟩ := hasSubstrL_cons h
    cases fuel with
    | zero => rfl
    | succ f =>
      rw [pyReplaceFuel, h1]
      simp [ih f h2]

lemma pyReplaceStr_id (s pat rep : String) (h : hasSubstrStr pat s = false) :
    pyReplaceStr s pat rep = s := by
  unfold pyReplaceStr
  rw [pyReplaceFuel_id pat.data rep.data s.data s.data.length h]

lemma mainGeneric500_body_inj {m1 m2 : String}
    (h : (mainGeneric500 m1).body = (mainGeneric500 m2).body) : m1 = m2 := by
  unfold mainGeneric500 at h
  simp only at h
  have h2 : m1.data = m2.data := by
    have h3 := congrArg String.data h
    simp only [String.data_append] at h3
    exact List.append_cancel_left h3
  cases m1; cases m2; simp_all

lemma main_no_diskWrite (env : MainEnv) (w : World) (req : ReqBody) (tag : String) :
    Event.diskWrite tag ∉ (mainPipeline env w req).events := by
  unfold mainPipeline
  rcases req with msg | tn | url
  · simp
  · simp
  · rcases url with _ | u
    · simp
    · by_cases hv : mainValid u
      · simp only [hv, if_true]
        cases hf : w.fetch u with
        | httpError code m => simp
        | networkError m => simp
        | ok c =>
          cases ht : w.transcode c with
          | error m => simp [ht]
          | ok b =>
            cases hcs : env.storageConnStr with
            | none => simp [ht, hcs]
            | some cs =>
              cases hup : w.uploadError with
              | some m => simp [ht, hcs, hup]
              | none =>
                cases hak : env.accountKey with
                | none => simp [ht, hcs, hup, hak]
                | some k => simp [ht, hcs, hup, hak]
      · simp [hv]

lemma app_diskWrite_of_fetchOk (env : AppEnv) (w : World) (u : String) (bytes : Bytes)
    (h1 : (u == "") = false) (h2 : w.fetch u = .ok bytes) :
    Event.diskWrite "xlsm" ∈ (convertXlsm env w (.parsed (some u))).events := by
  unfold convertXlsm
  simp only [h1, Bool.false_eq_true, if_false, h2]
  cases ht : w.transcode bytes with
  | error m => simp [ht]
  | ok b =>
    cases hcs : env.connStr with
    | none => simp [ht, hcs]
    | some cs =>
      cases han : env.accountName with
      | none => simp [ht, hcs, han]
      | some an =>
        cases hak : env.accountKey with
        | none => simp [ht, hcs, han, hak]
        | some k =>
          cases hup : w.uploadError with
          | some m => simp [ht, hcs, han, hak, hup]
          | none => simp [ht, hcs, han, hak, hup]

lemma mainBaseName_concat (a stem ext : String)
    (h1 : '/' ∉ stem.data) (h2 : '/' ∉ ext.data)
    (h3 : ∃ c ∈ stem.data, ¬ c = '.') (h4 : '.' ∉ ext.data) :
    mainBaseName (a ++ "/" ++ stem ++ "." ++ ext) = stem := by
  have hdata : (a ++ "/" ++ stem ++ "." ++ ext).data
      = a.data ++ '/' :: (stem.data ++ '.' :: ext.data) := by
    simp [String.data_append]
  have hseg : afterLastSep '/' (a ++ "/" ++ stem ++ "." ++ ext).data
      = stem.data ++ '.' :: ext.data := by
    rw [hdata]
    refine afterLastSep_append '/' a.data (stem.data ++ '.' :: ext.data) ?_
    intro hmem
    rcases List.mem_append.mp hmem with hs | hc
    · exact h1 hs
    · rcases List.mem_cons.mp hc with hdot | he
      · exact absurd hdot (by decide)
      · exact h2 he
  unfold mainBaseName lastSlashSegment splitextRoot
  rw [hseg]
  have : splitextRootL (stem.data ++ '.' :: ext.data) = stem.data :=
    splitextRootL_concat stem.data ext.data h3 h4
  rw [this]

lemma mainPipeline_success (cs k an : String) (w : World) (u : String) (bytes out : Bytes)
    (hv : mainValid u = true) (hf : w.fetch u = .ok bytes)
    (ht : w.transcode bytes = .ok out) (hu : w.uploadError = none) :
    mainPipeline ⟨some cs, some k, an⟩ w (.parsed (some u)) =
      ⟨⟨mainSuccessBody (blobUrl an OUTPUT_CONTAINER_NAME (mainOutputBlobName u w.now)
          ++ "?" ++ w.signSas (mainSasToken an u w)), 200⟩,
       [.fetchAttempt u, .transcodeRun,
        .uploadAttempt OUTPUT_CONTAINER_NAME (mainOutputBlobName u w.now)],
       [(OUTPUT_CONTAINER_NAME, mainOutputBlobName u w.now)],
       some (mainSasToken an u w)⟩ := by
  unfold mainPipeline
  simp [hv, hf, ht, hu]

lemma convertXlsm_success (cs an k : String) (co : Option String) (w : World) (u : String)
    (bytes out : Bytes)
    (h1 : (u == "") = false) (hf : w.fetch u = .ok bytes)
    (ht : w.transcode bytes = .ok out) (hu : w.uploadError = none) :
    convertXlsm ⟨some cs, some an, some k, co⟩ w (.parsed (some u)) =
      ⟨⟨appSuccessBody
          ("https://" ++ an ++ ".blob.core.windows.net/" ++ co.getD "converted"
            ++ "/" ++ xlsxNameOf (appBaseName u) ++ "?"
            ++ w.signSas (appSasToken an (co.getD "converted") (xlsxNameOf (appBaseName u)) w)),
        200⟩,
       [.fetchAttempt u, .diskWrite "xlsm", .transcodeRun, .diskWrite "xlsx",
        .uploadAttempt (co.getD "converted") (xlsxNameOf (appBaseName u)),
        .diskDelete "xlsm", .diskDelete "xlsx"],
       [(co.getD "converted", xlsxNameOf (appBaseName u))],
       some (appSasToken an (co.getD "converted") (xlsxNameOf (appBaseName u)) w)⟩ := by
  unfold convertXlsm
  simp [h1, hf, ht, hu]

lemma isDigit_digitChar (n : Nat) : (digitChar n).isDigit = true := by
  unfold digitChar
  have h : n % 10 < 10 := Nat.mod_lt _ (by norm_num)
  interval_cases h2 : n % 10 <;> decide

lemma length_strftime (t : DateTime) : (strftimeYmdHMS t).length = 14 := by
  have h4 : ∀ n, (pad4 n).length = 4 := fun n => rfl
  have h2 : ∀ n, (pad2 n).length = 2 := fun n => rfl
  simp [strftimeYmdHMS, String.length_append, h4, h2]

lemma all_digits_strftime (t : DateTime) :
    (strftimeYmdHMS t).data.all Char.isDigit = true := by
  have hmk : ∀ l : List Char, (String.mk l).data = l := fun l => rfl
  simp [strftimeYmdHMS, String.data_append, pad2, pad4, hmk, List.all_append,
    isDigit_digitChar]

/-! ## Claims -/

/-- Claim C1, counterexample: for the request URL
`"https://h/f.txt?q=.xlsm"` — whose path component `/f.txt` does not end
in `.xlsm`, while its query does — `main` does not return a 400 and does
attempt the fetch, because its guard applies the suffix check to the whole
URL string rather than to the path component. -/
theorem C1_counterexample :
    specPathOnlyXlsmCheck "https://h/f.txt?q=.xlsm" = false
    ∧ Event.fetchAttempt "https://h/f.txt?q=.xlsm"
        ∈ (mainPipeline demoMainEnv demoWorld
            (.parsed (some "https://h/f.txt?q=.xlsm"))).events
    ∧ (mainPipeline demoMainEnv demoWorld
        (.parsed (some "https://h/f.txt?q=.xlsm"))).resp.statusCode ≠ 400 :=
  ⟨by decide, by decide, by decide⟩

/-- Claim C1, amended: in `main`, the `.xlsm` suffix check is applied
case-insensitively to the ENTIRE source-reference string, query component
included; every request whose full URL string (lowercased) does not end in
`.xlsm` receives the 400 invalid-URL response, with no fetch attempted and
nothing published.  (In particular a URL whose path ends in `.xlsm` but
which carries a query string is rejected, and one whose query ends in
`.xlsm` is accepted; the `function_app` variant performs no extension
check at all.) -/
theorem C1_amended_theorem (env : MainEnv) (w : World) (u : String)
    (h : strEndsWith (strToLower u) ".xlsm" = false) :
    mainPipeline env w (.parsed (some u)) = ⟨mainInvalidUrlResp, [], [], none⟩ := by
  have hv : mainValid u = false := by simp [mainValid, h]
  unfold mainPipeline
  simp [hv]

/-- Witness for C1: a URL whose path ends in `.xlsm` but which carries a
query string is rejected by `main` with 400 and no fetch. -/
theorem C1_witness :
    strEndsWith (strToLower "https://h/f.xlsm?v=1") ".xlsm" = false
    ∧ mainPipeline demoMainEnv demoWorld (.parsed (some "https://h/f.xlsm?v=1"))
        = ⟨mainInvalidUrlResp, [], [], none⟩ :=
  ⟨by decide, C1_amended_theorem demoMainEnv demoWorld "https://h/f.xlsm?v=1" (by decide)⟩

/-- Claim C2, counterexample: a body that is valid JSON but not an object
makes `main` answer 500 (the `.get` call raises `AttributeError`, caught
by the catch-all handler), and a body that is not valid JSON makes
`convert_xlsm` answer 500 (its `req.get_json()` call is not wrapped);
neither is the claimed 400. -/
theorem C2_counterexample :
    (mainPipeline demoMainEnv demoWorld (.nonDict "list")).resp.statusCode ≠ 400
    ∧ (mainPipeline demoMainEnv demoWorld (.nonDict "list")).resp.statusCode = 500
    ∧ (convertXlsm demoAppEnv demoWorld
        (.invalid "Expecting value: line 1 column 1 (char 0)")).resp.statusCode ≠ 400
    ∧ (convertXlsm demoAppEnv demoWorld
        (.invalid "Expecting value: line 1 column 1 (char 0)")).resp.statusCode = 500 :=
  ⟨by decide, by decide, by decide, by decide⟩

/-- Claim C2, amended: `main` returns 400 for a body that is not valid
JSON and for a missing or empty source-location field, but 500 for a body
that is valid JSON without being an object; `convert_xlsm` returns 400
only for a missing or empty field, and 500 (via its generic handler) for
any body whose JSON parse fails, as well as for a non-object body. -/
theorem C2_amended_theorem (e : MainEnv) (e2 : AppEnv) (w : World) (msg tn : String) :
    (mainPipeline e w (.invalid msg)).resp = mainBadJsonResp
    ∧ (mainPipeline e w (.parsed none)).resp = mainInvalidUrlResp
    ∧ (mainPipeline e w (.parsed (some ""))).resp = mainInvalidUrlResp
    ∧ (mainPipeline e w (.nonDict tn)).resp = mainGeneric500 (attrErrMsg tn)
    ∧ (convertXlsm e2 w (.invalid msg)).resp = appErrorResp msg
    ∧ (convertXlsm e2 w (.parsed none)).resp = appMissingUrlResp
    ∧ (convertXlsm e2 w (.parsed (some ""))).resp = appMissingUrlResp
    ∧ (convertXlsm e2 w (.nonDict tn)).resp = appErrorResp (attrErrMsg tn) := by
  have hv : mainValid "" = false := by decide
  have he : ("" == "") = true := by decide
  refine ⟨rfl, rfl, ?_, rfl, rfl, rfl, ?_, rfl⟩
  · unfold mainPipeline; simp [hv]
  · unfold convertXlsm; simp [he]

/-- Claim C3, counterexample: a network-level fetch failure makes `main`
answer 500 (neither 400 nor 502), and an HTTP 404 during fetch makes
`convert_xlsm` answer 500. -/
theorem C3_counterexample :
    (mainPipeline demoMainEnv wNet (.parsed (some "https://h/f.xlsm"))).resp.statusCode = 500
    ∧ ¬ ((mainPipeline demoMainEnv wNet
          (.parsed (some "https://h/f.xlsm"))).resp.statusCode = 400
        ∨ (mainPipeline demoMainEnv wNet
            (.parsed (some "https://h/f.xlsm"))).resp.statusCode = 502)
    ∧ (convertXlsm demoAppEnv w404 (.parsed (some "https://h/f.xlsm"))).resp.statusCode = 500 :=
  ⟨by decide, by decide, by decide⟩

/-- Claim C3, amended: when the fetch fails, no later stage runs (the
trace holds only the fetch attempt, nothing is stored, no SAS is minted)
in either variant, but the statuses are: `main` answers 400 with the
upstream status code in the body only for `requests.HTTPError` (non-2xx)
failures, and 500 for network-level failures; `convert_xlsm` answers 500
for every fetch failure, with only the exception text in the body. -/
theorem C3_amended_theorem (e : MainEnv) (e2 : AppEnv) (w1 w2 w3 w4 : World)
    (u1 u2 u3 u4 m1 m2 m3 m4 : String) (c1 c3 : Nat)
    (hv1 : mainValid u1 = true) (hf1 : w1.fetch u1 = .httpError c1 m1)
    (hv2 : mainValid u2 = true) (hf2 : w2.fetch u2 = .networkError m2)
    (hv3 : (u3 == "") = false) (hf3 : w3.fetch u3 = .httpError c3 m3)
    (hv4 : (u4 == "") = false) (hf4 : w4.fetch u4 = .networkError m4) :
    mainPipeline e w1 (.parsed (some u1)) = ⟨mainHttpErrResp c1, [.fetchAttempt u1], [], none⟩
    ∧ mainPipeline e w2 (.parsed (some u2)) = ⟨mainGeneric500 m2, [.fetchAttempt u2], [], none⟩
    ∧ convertXlsm e2 w3 (.parsed (some u3))
        = ⟨appDownloadErrResp m3, [.fetchAttempt u3], [], none⟩
    ∧ convertXlsm e2 w4 (.parsed (some u4))
        = ⟨appDownloadErrResp m4, [.fetchAttempt u4], [], none⟩ := by
  refine ⟨?_, ?_, ?_, ?_⟩
  · unfold mainPipeline; simp [hv1, hf1]
  · unfold mainPipeline; simp [hv2, hf2]
  · unfold convertXlsm; simp [hv3, hf3]
  · unfold convertXlsm; simp [hv4, hf4]

/-- Witness for C3 at HTTP 404 and a connection failure. -/
theorem C3_witness :
    mainPipeline demoMainEnv w404 (.parsed (some "https://h/f.xlsm"))
      = ⟨mainHttpErrResp 404, [.fetchAttempt "https://h/f.xlsm"], [], none⟩
    ∧ mainPipeline demoMainEnv wNet (.parsed (some "https://h/f.xlsm"))
      = ⟨mainGeneric500 "Connection refused", [.fetchAttempt "https://h/f.xlsm"], [], none⟩
    ∧ convertXlsm demoAppEnv w404 (.parsed (some "https://h/f.xlsm"))
      = ⟨appDownloadErrResp "404 Client Error: Not Found",
         [.fetchAttempt "https://h/f.xlsm"], [], none⟩
    ∧ convertXlsm demoAppEnv wNet (.parsed (some "https://h/f.xlsm"))
      = ⟨appDownloadErrResp "Connection refused",
         [.fetchAttempt "https://h/f.xlsm"], [], none⟩ :=
  C3_amended_theorem demoMainEnv demoAppEnv w404 wNet w404 wNet
    "https://h/f.xlsm" "https://h/f.xlsm" "https://h/f.xlsm" "https://h/f.xlsm"
    "404 Client Error: Not Found" "Connection refused"
    "404 Client Error: Not Found" "Connection refused" 404 404
    (by decide) rfl (by decide) rfl (by decide) rfl (by decide) rfl

/-- Claim C4: when every stage up to and including the upload succeeds but
no account key is resolvable, `main` answers 500 with the distinctive
no-account-key message — a body different from the one any storage-write
failure produces (the generic handler embeds the originating exception
text, and the upload-failure text differs from the credential text) —
while the published object is still present in the output store under its
derived name. -/
theorem C4_link_issuance (cs an m : String) (w : World) (u : String) (bytes out : Bytes)
    (hv : mainValid u = true) (hf : w.fetch u = .ok bytes)
    (ht : w.transcode bytes = .ok out) (hu : w.uploadError = none)
    (hm : m ≠ noKeyMsg) :
    (mainPipeline ⟨some cs, none, an⟩ w (.parsed (some u))).resp.statusCode = 500
    ∧ (mainPipeline ⟨some cs, none, an⟩ w (.parsed (some u))).resp.body
        = (mainGeneric500 noKeyMsg).body
    ∧ (OUTPUT_CONTAINER_NAME, mainOutputBlobName u w.now)
        ∈ (mainPipeline ⟨some cs, none, an⟩ w (.parsed (some u))).store
    ∧ (mainPipeline ⟨some cs, none, an⟩ { w with uploadError := some m }
        (.parsed (some u))).resp.body
        ≠ (mainPipeline ⟨some cs, none, an⟩ w (.parsed (some u))).resp.body := by
  have hrun : mainPipeline ⟨some cs, none, an⟩ w (.parsed (some u))
      = ⟨mainGeneric500 noKeyMsg,
         [.fetchAttempt u, .transcodeRun,
          .uploadAttempt OUTPUT_CONTAINER_NAME (mainOutputBlobName u w.now)],
         [(OUTPUT_CONTAINER_NAME, mainOutputBlobName u w.now)], none⟩ := by
    unfold mainPipeline; simp [hv, hf, ht, hu]
  have hrun2 : mainPipeline ⟨some cs, none, an⟩ { w with uploadError := some m }
      (.parsed (some u))
      = ⟨mainGeneric500 m,
         [.fetchAttempt u, .transcodeRun,
          .uploadAttempt OUTPUT_CONTAINER_NAME (mainOutputBlobName u w.now)],
         [], none⟩ := by
    unfold mainPipeline; simp [hv, hf, ht]
  rw [hrun, hrun2]
  refine ⟨rfl, rfl, by simp, ?_⟩
  intro hEq
  exact hm (mainGeneric500_body_inj hEq)

/-- Witness for C4: all collaborators succeed, the account key is absent,
and the upload-failure exception text differs from the credential text. -/
theorem C4_witness :
    (mainPipeline noKeyMainEnv demoWorld (.parsed (some "https://h/f.xlsm"))).resp.statusCode
      = 500
    ∧ (mainPipeline noKeyMainEnv demoWorld (.parsed (some "https://h/f.xlsm"))).resp.body
      = (mainGeneric500 noKeyMsg).body
    ∧ (OUTPUT_CONTAINER_NAME, mainOutputBlobName "https://h/f.xlsm" demoWorld.now)
      ∈ (mainPipeline noKeyMainEnv demoWorld (.parsed (some "https://h/f.xlsm"))).store
    ∧ (mainPipeline noKeyMainEnv { demoWorld with uploadError := some "upload failed" }
        (.parsed (some "https://h/f.xlsm"))).resp.body
      ≠ (mainPipeline noKeyMainEnv demoWorld (.parsed (some "https://h/f.xlsm"))).resp.body :=
  C4_link_issuance "DefaultEndpointsProtocol=https;AccountName=acct" "acct" "upload failed"
    demoWorld "https://h/f.xlsm" [80, 75, 3, 4] [80, 75, 9, 9]
    (by decide) rfl rfl rfl (by decide)

/-- Claim C5: under `main`'s naming rule the derived output name is the
configured folder prefix `converted/` followed by `base`, `_`, the clock
rendered as the 14 all-digit string `YYYYMMDDHHMMSS`, and `.xlsx`; the
derivation is a pure function, so equal base names and equal clock values
yield equal names. -/
theorem C5_naming (u : String) (t : DateTime) :
    mainOutputBlobName u t
      = "converted/" ++ (mainBaseName u ++ "_" ++ strftimeYmdHMS t ++ ".xlsx")
    ∧ (strftimeYmdHMS t).length = 14
    ∧ (strftimeYmdHMS t).data.all Char.isDigit = true
    ∧ (∀ u2 t2, u = u2 → t = t2 → mainOutputBlobName u t = mainOutputBlobName u2 t2) := by
  refine ⟨?_, length_strftime t, all_digits_strftime t, ?_⟩
  · simp [mainOutputBlobName, String.append_assoc]
  · intro u2 t2 hu ht2; rw [hu, ht2]

/-- Witness for C5 at a concrete URL and instant. -/
theorem C5_witness :
    mainOutputBlobName "https://h/report.xlsm" ⟨2024, 1, 1, 12, 0, 0⟩
      = "converted/report_20240101120000.xlsx"
    ∧ mainOutputBlobName "https://h/report.xlsm" ⟨2024, 1, 1, 12, 0, 0⟩
      = mainOutputBlobName "https://h/report.xlsm" ⟨2024, 1, 1, 12, 0, 0⟩ :=
  ⟨by decide,
   (C5_naming "https://h/report.xlsm" ⟨2024, 1, 1, 12, 0, 0⟩).2.2.2
     "https://h/report.xlsm" ⟨2024, 1, 1, 12, 0, 0⟩ rfl rfl⟩

/-- Claim C6, counterexample: `main` never percent-decodes (the segment
`a%20b.xlsm` yields base `a%20b`, while the spec's rule yields `a b`),
and its segment is cut from the full URL, so a query string containing a
dot leaks into the base name (`f.xlsm?v=1.2` yields `f.xlsm?v=1`);
`convert_xlsm` does exclude the query via `urlparse` but also never
percent-decodes. -/
theorem C6_counterexample :
    mainBaseName "https://h/a%20b.xlsm" = "a%20b"
    ∧ specInferredBaseName "https://h/a%20b.xlsm" = "a b"
    ∧ mainBaseName "https://h/a%20b.xlsm" ≠ specInferredBaseName "https://h/a%20b.xlsm"
    ∧ mainBaseName "https://h/f.xlsm?v=1.2" = "f.xlsm?v=1"
    ∧ specInferredBaseName "https://h/f.xlsm?v=1.2" = "f"
    ∧ mainBaseName "https://h/f.xlsm?v=1.2" ≠ specInferredBaseName "https://h/f.xlsm?v=1.2"
    ∧ appBaseName "https://h/a%20b.xlsm" = "a%20b.xlsm" :=
  ⟨by decide, by decide, by decide, by decide, by decide, by decide, by decide⟩

/-- Claim C6, amended: in `main` the inferred base name is the portion of
the FULL source-reference string after its last `/` (so query parameters
are part of that portion and survive into the base name whenever they
contain a dot), truncated at the portion's last dot, with NO
percent-decoding applied: for any reference of the shape
`a ++ "/" ++ stem ++ "." ++ ext` whose trailing portion contains no
further slash and whose extension part contains no dot, the base name is
exactly `stem`, percent-escapes included verbatim. -/
theorem C6_amended_theorem (a stem ext : String)
    (h1 : '/' ∉ stem.data) (h2 : '/' ∉ ext.data)
    (h3 : ∃ c ∈ stem.data, ¬ c = '.') (h4 : '.' ∉ ext.data) :
    mainBaseName (a ++ "/" ++ stem ++ "." ++ ext) = stem :=
  mainBaseName_concat a stem ext h1 h2 h3 h4

/-- Witness for C6: a percent-escaped stem comes through verbatim. -/
theorem C6_witness :
    mainBaseName ("https://h" ++ "/" ++ "a%20b" ++ "." ++ "xlsm") = "a%20b" :=
  C6_amended_theorem "https://h" "a%20b" "xlsm" (by decide) (by decide)
    ⟨'a', by decide, by decide⟩ (by decide)

/-- Claim C7, counterexample: a fully successful `convert_xlsm` run
answers 200 with a body whose link field is named `xlsx_url`; the field
name `converted_url` required by the claim appears nowhere in the body. -/
theorem C7_counterexample :
    (convertXlsm demoAppEnv demoWorld
      (.parsed (some "https://h/report.xlsm"))).resp.statusCode = 200
    ∧ hasSubstrStr "converted_url"
        (convertXlsm demoAppEnv demoWorld
          (.parsed (some "https://h/report.xlsm"))).resp.body = false
    ∧ hasSubstrStr "xlsx_url"
        (convertXlsm demoAppEnv demoWorld
          (.parsed (some "https://h/report.xlsm"))).resp.body = true :=
  ⟨by decide, by decide, by decide⟩

/-- Claim C7, amended: on a fully successful conversion both variants
answer 200 with a two-field JSON body carrying a success marker and the
signed URL, but the link field is named `converted_url` only in `main`
(via `json.dumps`, with spaces after the separators); `convert_xlsm`
names it `xlsx_url` (via an f-string, without escaping). -/
theorem C7_amended_theorem (cs k an cs2 an2 k2 : String) (co : Option String)
    (w : World) (u u2 : String) (bytes out bytes2 out2 : Bytes)
    (hv : mainValid u = true) (hf : w.fetch u = .ok bytes)
    (ht : w.transcode bytes = .ok out) (hu : w.uploadError = none)
    (h1 : (u2 == "") = false) (hf2 : w.fetch u2 = .ok bytes2)
    (ht2 : w.transcode bytes2 = .ok out2) :
    (mainPipeline ⟨some cs, some k, an⟩ w (.parsed (some u))).resp
      = ⟨"\x7b\"status\": \"success\", \"converted_url\": \""
          ++ jsonEscape (blobUrl an OUTPUT_CONTAINER_NAME (mainOutputBlobName u w.now)
              ++ "?" ++ w.signSas (mainSasToken an u w)) ++ "\"\x7d", 200⟩
    ∧ (convertXlsm ⟨some cs2, some an2, some k2, co⟩ w (.parsed (some u2))).resp
      = ⟨"\x7b\"status\":\"success\",\"xlsx_url\":\""
          ++ ("https://" ++ an2 ++ ".blob.core.windows.net/" ++ co.getD "converted"
              ++ "/" ++ xlsxNameOf (appBaseName u2) ++ "?"
              ++ w.signSas (appSasToken an2 (co.getD "converted")
                  (xlsxNameOf (appBaseName u2)) w)) ++ "\"\x7d", 200⟩ := by
  rw [mainPipeline_success cs k an w u bytes out hv hf ht hu,
      convertXlsm_success cs2 an2 k2 co w u2 bytes2 out2 h1 hf2 ht2 hu]
  exact ⟨rfl, rfl⟩

/-- Witness for C7 at concrete requests against concrete collaborators. -/
theorem C7_witness :
    (mainPipeline demoMainEnv demoWorld (.parsed (some "https://h/report.xlsm"))).resp
      = ⟨"\x7b\"status\": \"success\", \"converted_url\": \"https://acct.blob.core.windows.net/xlsx-output/converted/report_20240101120000.xlsx?sv=2024&sig=abc\"\x7d",
         200⟩
    ∧ (convertXlsm demoAppEnv demoWorld (.parsed (some "https://h/report.xlsm"))).resp
      = ⟨"\x7b\"status\":\"success\",\"xlsx_url\":\"https://acct.blob.core.windows.net/converted/report.xlsx?sv=2024&sig=abc\"\x7d",
         200⟩ := by
  have h := C7_amended_theorem
    "DefaultEndpointsProtocol=https;AccountName=acct;AccountKey=key123" "key123" "acct"
    "connstr" "acct" "key123" none demoWorld
    "https://h/report.xlsm" "https://h/report.xlsm"
    [80, 75, 3, 4] [80, 75, 9, 9] [80, 75, 3, 4] [80, 75, 9, 9]
    (by decide) rfl rfl rfl (by decide) rfl rfl
  exact ⟨h.1.trans (by decide), h.2.trans (by decide)⟩

/-- Claim C8: on the full success path, the SAS token minted by either
variant grants exactly the read permission (all other permission flags
false) and expires exactly 3600 seconds — 60 minutes — after the issuing
clock value. -/
theorem C8_sas_readonly_ttl (cs k an cs2 an2 k2 : String) (co : Option String)
    (w : World) (u u2 : String) (bytes out bytes2 out2 : Bytes)
    (hv : mainValid u = true) (hf : w.fetch u = .ok bytes)
    (ht : w.transcode bytes = .ok out) (hu : w.uploadError = none)
    (h1 : (u2 == "") = false) (hf2 : w.fetch u2 = .ok bytes2)
    (ht2 : w.transcode bytes2 = .ok out2) :
    (mainPipeline ⟨some cs, some k, an⟩ w (.parsed (some u))).sas
      = some ⟨an, OUTPUT_CONTAINER_NAME, mainOutputBlobName u w.now,
              true, false, false, false, false, w.nowSec + 3600⟩
    ∧ (convertXlsm ⟨some cs2, some an2, some k2, co⟩ w (.parsed (some u2))).sas
      = some ⟨an2, co.getD "converted", xlsxNameOf (appBaseName u2),
              true, false, false, false, false, w.nowSec + 3600⟩ := by
  rw [mainPipeline_success cs k an w u bytes out hv hf ht hu,
      convertXlsm_success cs2 an2 k2 co w u2 bytes2 out2 h1 hf2 ht2 hu]
  constructor
  · simp only [mainSasToken, minutes]
  · simp only [appSasToken, hours]

/-- Witness for C8: both tokens at a concrete instant. -/
theorem C8_witness :
    (mainPipeline demoMainEnv demoWorld (.parsed (some "https://h/report.xlsm"))).sas
      = some ⟨"acct", OUTPUT_CONTAINER_NAME,
              mainOutputBlobName "https://h/report.xlsm" demoWorld.now,
              true, false, false, false, false, demoWorld.nowSec + 3600⟩
    ∧ (convertXlsm demoAppEnv demoWorld (.parsed (some "https://h/report.xlsm"))).sas
      = some ⟨"acct", Option.getD none "converted",
              xlsxNameOf (appBaseName "https://h/report.xlsm"),
              true, false, false, false, false, demoWorld.nowSec + 3600⟩ :=
  C8_sas_readonly_ttl
    "DefaultEndpointsProtocol=https;AccountName=acct;AccountKey=key123" "key123" "acct"
    "connstr" "acct" "key123" none demoWorld
    "https://h/report.xlsm" "https://h/report.xlsm"
    [80, 75, 3, 4] [80, 75, 9, 9] [80, 75, 3, 4] [80, 75, 9, 9]
    (by decide) rfl rfl rfl (by decide) rfl rfl

/-- Claim C9, counterexample: on a successful fetch, `convert_xlsm`
writes the fetched bytes to a temporary `.xlsm` file on local disk and
the transcoded bytes to a temporary `.xlsx` file before publishing. -/
theorem C9_counterexample :
    Event.diskWrite "xlsm"
      ∈ (convertXlsm demoAppEnv demoWorld (.parsed (some "https://h/report.xlsm"))).events
    ∧ Event.diskWrite "xlsx"
      ∈ (convertXlsm demoAppEnv demoWorld (.parsed (some "https://h/report.xlsm"))).events :=
  ⟨by decide, by decide⟩

/-- Claim C9, amended: `main` holds the fetched and transcoded bytes only
in memory — no run of it, on any request and against any collaborators,
ever writes to persistent local storage — whereas `convert_xlsm` writes
the fetched bytes to a temp `.xlsm` file on disk as soon as the fetch
succeeds (and, when the transcode also succeeds, the transcoded bytes to
a temp `.xlsx` file before publishing). -/
theorem C9_amended_theorem (e : MainEnv) (e2 : AppEnv) (w : World) (req : ReqBody)
    (u : String) (bytes : Bytes)
    (h1 : (u == "") = false) (h2 : w.fetch u = .ok bytes) :
    (∀ tag, Event.diskWrite tag ∉ (mainPipeline e w req).events)
    ∧ Event.diskWrite "xlsm" ∈ (convertXlsm e2 w (.parsed (some u))).events :=
  ⟨fun tag => main_no_diskWrite e w req tag, app_diskWrite_of_fetchOk e2 w u bytes h1 h2⟩

/-- Witness for C9 at a concrete request. -/
theorem C9_witness :
    Event.diskWrite "xlsm"
      ∉ (mainPipeline demoMainEnv demoWorld (.parsed (some "https://h/report.xlsm"))).events
    ∧ Event.diskWrite "xlsm"
      ∈ (convertXlsm demoAppEnv demoWorld (.parsed (some "https://h/report.xlsm"))).events :=
  ⟨(C9_amended_theorem demoMainEnv demoAppEnv demoWorld
      (.parsed (some "https://h/report.xlsm")) "https://h/report.xlsm" [80, 75, 3, 4]
      (by decide) rfl).1 "xlsm",
   (C9_amended_theorem demoMainEnv demoAppEnv demoWorld
      (.parsed (some "https://h/report.xlsm")) "https://h/report.xlsm" [80, 75, 3, 4]
      (by decide) rfl).2⟩

/-- Claim C10: on a successful `convert_xlsm` run the published object's
name is the source URL's base file name with every occurrence of the
case-sensitive substring `.xlsm` replaced by `.xlsx`; consequently, when
the base name contains no lowercase `.xlsm` (for instance an uppercase
`.XLSM`, which this variant's validation does not reject), the object is
published under the original base name unchanged. -/
theorem C10_flat_naming (cs an k : String) (co : Option String) (w : World) (u : String)
    (bytes out : Bytes)
    (h1 : (u == "") = false) (hf : w.fetch u = .ok bytes)
    (ht : w.transcode bytes = .ok out) (hu : w.uploadError = none) :
    (convertXlsm ⟨some cs, some an, some k, co⟩ w (.parsed (some u))).store
      = [(co.getD "converted", pyReplaceStr (appBaseName u) ".xlsm" ".xlsx")]
    ∧ (hasSubstrStr ".xlsm" (appBaseName u) = false →
        xlsxNameOf (appBaseName u) = appBaseName u) := by
  constructor
  · rw [convertXlsm_success cs an k co w u bytes out h1 hf ht hu]
    simp [xlsxNameOf]
  · intro h
    exact pyReplaceStr_id (appBaseName u) ".xlsm" ".xlsx" h

/-- Witness for C10: an uppercase `.XLSM` source is published under its
unchanged base name, with no `.xlsx` extension. -/
theorem C10_witness :
    (convertXlsm demoAppEnv demoWorld (.parsed (some "https://h/c/FILE.XLSM"))).store
      = [("converted", pyReplaceStr (appBaseName "https://h/c/FILE.XLSM") ".xlsm" ".xlsx")]
    ∧ xlsxNameOf (appBaseName "https://h/c/FILE.XLSM") = appBaseName "https://h/c/FILE.XLSM" :=
  ⟨(C10_flat_naming "connstr" "acct" "key123" none demoWorld "https://h/c/FILE.XLSM"
      [80, 75, 3, 4] [80, 75, 9, 9] (by decide) rfl rfl rfl).1,
   (C10_flat_naming "connstr" "acct" "key123" none demoWorld "https://h/c/FILE.XLSM"
      [80, 75, 3, 4] [80, 75, 9, 9] (by decide) rfl rfl rfl).2 (by decide)⟩

end XlsmConvert
